import Mathlib

/-!
Verification of the settings-resolution core of `CascadiaSettings`
(`src/cascadia/TerminalSettingsModel/CascadiaSettings.cpp` and its header).

The development shallowly embeds the data model and the operations of the
resolver.  Profiles whose behaviour is defined in `Profile.h`/`Profile.cpp`
(not part of the sources at hand) are modelled from the specification as
trees with an ordered parent chain and tri-state settings; everything that
lives in `CascadiaSettings.cpp` is translated from that source directly.
-/

namespace CascadiaModel

/-- GUIDs are 128-bit values; we model them as naturals. The zero GUID
(`winrt::guid{}`) plays the role of "nil" (an absent `updates` target). -/
abbrev Guid := Nat

/-- Origin tag of a profile, as in `OriginTag` of the settings model. -/
inductive OriginTag where
  | inBox
  | generated
  | fragment
  | profilesDefaults
  | user
  deriving DecidableEq, Repr

/-- Fatal load error codes of `SettingsLoadErrors` that the resolver throws
through `SettingsException`. -/
inductive SettingsLoadErrors where
  | NoProfiles
  | AllProfilesHidden
  deriving DecidableEq, Repr

/-- The warnings of `SettingsLoadWarnings` that the resolution path appends. -/
inductive SettingsLoadWarnings where
  | DuplicateProfile
  | MissingDefaultProfile
  | UnknownColorScheme
  | InvalidBackgroundImage
  | InvalidIcon
  | AtLeastOneKeybindingWarning
  | InvalidColorSchemeInCmd
  | FailedToWriteToSettings
  deriving DecidableEq, Repr

/-- Modelled from the spec: the scalar data of a `Profile` object
(`Profile.h` is not among the sources).  Every inheritable setting is
tri-state — absent key: unset; key bound to `none`: cleared; key bound to
`some v`: set to `v` (spec section 3, "Tri-state settings").  `hiddenDecl`
is the profile's own declaration of the inheritable `Hidden` setting, and
`name`/`guid`/`source`/`origin`/`updates`/`deleted` are the identifying
attributes listed by the spec. -/
structure ProfileData where
  guid : Guid
  name : String
  origin : OriginTag
  source : Option String
  hiddenDecl : Option Bool
  deleted : Bool
  updates : Guid
  settings : List (String × Option String)
  deriving DecidableEq, Repr

/-- Modelled from the spec: a profile is its own data together with an
ordered sequence of parent profiles (the inheritance chain, spec section 3).
Lookups scan the chain depth-first, front to back. -/
inductive PTree where
  | node (data : ProfileData) (parents : List PTree)
  deriving Repr

namespace PTree

def data : PTree → ProfileData
  | .node d _ => d

def parents : PTree → List PTree
  | .node _ ps => ps

def guid (p : PTree) : Guid := p.data.guid

def name (p : PTree) : String := p.data.name

def updates (p : PTree) : Guid := p.data.updates

def origin (p : PTree) : OriginTag := p.data.origin

def deleted (p : PTree) : Bool := p.data.deleted

/-- Rebuild the node with the `source` attribute set (`Profile::Source`). -/
def setSource (src : String) : PTree → PTree
  | .node d ps => .node { d with source := some src } ps

/-- Modelled from the spec: `Profile::InsertParent(0, p)` — prepend `p` as
the front-most parent. -/
def insertParentFront : PTree → PTree → PTree
  | .node d ps, par => .node d (par :: ps)

/-- Modelled from the spec: `Profile::InsertParent(p)` — append `p` as the
hindmost parent. -/
def insertParentBack : PTree → PTree → PTree
  | .node d ps, par => .node d (ps ++ [par])

/-- The profile's own declaration for a settings key, if any. -/
def ownDecl (p : PTree) (k : String) : Option (Option String) :=
  p.data.settings.lookup k

mutual

/-- Modelled from the spec: inheritance lookup (spec section 4.7).  The
first declaration found wins: the profile's own settings are consulted
first, then the parents depth-first, left to right.  The result is the
winning declaration — `some none` is an explicit "cleared" marker that
shadows parents, `some (some v)` a set value, `none` means no participant
declares the key. -/
def lookupDecl : PTree → String → Option (Option String)
  | .node d ps, k =>
    match d.settings.lookup k with
    | some v => some v
    | none => lookupDeclList ps k

/-- Depth-first, left-to-right lookup over a list of parents. -/
def lookupDeclList : List PTree → String → Option (Option String)
  | [], _ => none
  | p :: ps, k =>
    match lookupDecl p k with
    | some v => some v
    | none => lookupDeclList ps k

end

mutual

/-- Modelled from the spec: the effective value of the inheritable `Hidden`
setting — first declaration in the chain wins, default `false`. -/
def effectiveHidden : PTree → Bool
  | .node d ps =>
    match d.hiddenDecl with
    | some b => b
    | none => effectiveHiddenList ps

/-- First `Hidden` declaration among a list of parents, default `false`. -/
def effectiveHiddenList : List PTree → Bool
  | [] => false
  | p :: ps =>
    match hiddenFirstDecl p with
    | some b => b
    | none => effectiveHiddenList ps

/-- The first `Hidden` declaration in a profile's chain, if any. -/
def hiddenFirstDecl : PTree → Option Bool
  | .node d ps =>
    match d.hiddenDecl with
    | some b => some b
    | none => hiddenFirstDeclList ps

/-- The first `Hidden` declaration over a list of parents, if any. -/
def hiddenFirstDeclList : List PTree → Option Bool
  | [] => none
  | p :: ps =>
    match hiddenFirstDecl p with
    | some b => some b
    | none => hiddenFirstDeclList ps

end

end PTree

/-! ### Finalization and validation order (`LoadAll` tail)

`LoadAll` runs `settings->_FinalizeSettings()` and then
`settings->_validateSettings()`.  `_FinalizeSettings` calls
`_UpdateActiveProfiles` (which throws `AllProfilesHidden` when the filtered
active list is empty) and `_ResolveDefaultProfile` (which never throws).
`_validateSettings` begins with `_validateProfilesExist` (which throws
`NoProfiles` when `_allProfiles` is empty); its later checks only append
warnings.  Exceptions are modelled with `Except`. -/

/-- `CascadiaSettings::_UpdateActiveProfiles`: rebuild the active list from
all profiles, keeping the non-hidden ones; throw `AllProfilesHidden` when
the result is empty. -/
def updateActiveProfiles (allProfiles : List PTree) :
    Except SettingsLoadErrors (List PTree) :=
  let active := allProfiles.filter (fun p => !p.effectiveHidden)
  if active.length = 0 then
    .error .AllProfilesHidden
  else
    .ok active

/-- `CascadiaSettings::_validateProfilesExist`: throw `NoProfiles` when the
profile list is empty. -/
def validateProfilesExist (allProfiles : List PTree) :
    Except SettingsLoadErrors Unit :=
  if allProfiles.length = 0 then .error .NoProfiles else .ok ()

/-- The exception-relevant part of `LoadAll`'s tail:
`_FinalizeSettings` (i.e. `_UpdateActiveProfiles`; `_ResolveDefaultProfile`
throws nothing) runs first, then `_validateSettings` whose first check is
`_validateProfilesExist`; the remaining validators only append warnings.
Returns the computed active list on success. -/
def finalizeAndValidateProfiles (allProfiles : List PTree) :
    Except SettingsLoadErrors (List PTree) :=
  match updateActiveProfiles allProfiles with
  | .error e => .error e
  | .ok active =>
      match validateProfilesExist allProfiles with
      | .error e => .error e
      | .ok _ => .ok active

/-! ### Exception surface of `LoadAll` (claim C3)

`LoadAll` is a function-level `try` with exactly two catch clauses:
`SettingsException` (stored into `_loadError`) and
`SettingsTypedDeserializationException` (stored into
`_deserializationErrorMessage`).  `_parseJSON` reports a JSON syntax
failure by throwing `winrt::hresult_error(WEB_E_INVALID_JSON_STRING, …)`,
which matches neither clause. -/

/-- The exceptions that can escape the body of `LoadAll`. -/
inductive LoadException where
  | settingsErr (e : SettingsLoadErrors)
  | typedDeserializationErr (msg : String)
  | hresultErr (msg : String)
  deriving DecidableEq, Repr

/-- The load-error surface of the returned `CascadiaSettings` value. -/
structure LoadOutcome where
  loadError : Option SettingsLoadErrors
  deserializationErrorMessage : Option String
  deriving DecidableEq, Repr

/-- The two catch clauses at the end of `CascadiaSettings::LoadAll`: a
`SettingsException` becomes `_loadError`, a
`SettingsTypedDeserializationException` becomes
`_deserializationErrorMessage`, and any other exception propagates to the
caller. -/
def loadAllCatchClauses (body : Except LoadException LoadOutcome) :
    Except LoadException LoadOutcome :=
  match body with
  | .error (.settingsErr e) =>
      .ok { loadError := some e, deserializationErrorMessage := none }
  | .error (.typedDeserializationErr m) =>
      .ok { loadError := none, deserializationErrorMessage := some m }
  | other => other

/-- How parsing the user's settings string can end inside `LoadAll`:
success, a JSON syntax failure inside `_parseJSON`, or a typed
deserialization error (caught and rethrown with location info by
`_rethrowSerializationExceptionWithLocationInfo`). -/
inductive UserParseResult where
  | parsed
  | jsonSyntaxFailure (errs : String)
  | typedFailure (msg : String)
  deriving DecidableEq, Repr

/-- The exception-relevant skeleton of `LoadAll`'s body: `_parseJSON`
throws `hresult_error` on a JSON syntax failure; a
`JsonUtils::DeserializationError` is rethrown as
`SettingsTypedDeserializationException`; later,
`_FinalizeSettings`/`_validateSettings` throw a `SettingsException`
carrying a fatal error code. -/
def loadAllBody (userParse : UserParseResult)
    (validation : Option SettingsLoadErrors) :
    Except LoadException LoadOutcome :=
  match userParse with
  | .jsonSyntaxFailure errs => .error (.hresultErr errs)
  | .typedFailure m => .error (.typedDeserializationErr m)
  | .parsed =>
      match validation with
      | some e => .error (.settingsErr e)
      | none => .ok { loadError := none, deserializationErrorMessage := none }

/-- `LoadAll` as seen by its caller: the body guarded by the two catch
clauses. -/
def loadAllResult (userParse : UserParseResult)
    (validation : Option SettingsLoadErrors) :
    Except LoadException LoadOutcome :=
  loadAllCatchClauses (loadAllBody userParse validation)

/-! ### The profile catalog: `ParsedSettings` and its operations

`ParsedSettings` holds the ordered profile list and the GUID-keyed index
`profilesByGuid` (an `std::unordered_map`, modelled as an association
list; only key membership and the mapped value are ever observed).
Warnings are recorded on the enclosing `CascadiaSettings` object
(`_warnings`); we carry them in the same record.  The C++ containers hold
`com_ptr`s to shared profile objects; this embedding tracks the catalog
through the map's values (object identity itself is examined via the
structural content of the trees). -/

structure ParsedSettingsT where
  profiles : List PTree
  profilesByGuid : List (Guid × PTree)
  warnings : List SettingsLoadWarnings

/-- Key membership in the GUID index (`unordered_map` lookup). -/
def guidLookup (m : List (Guid × PTree)) (g : Guid) : Option PTree :=
  match m with
  | [] => none
  | (g', p) :: rest => if g' = g then some p else guidLookup rest g

/-- Update the value mapped by a key, leaving the key set unchanged
(mutation of the shared object reached through `find`). -/
def guidMapUpdate (m : List (Guid × PTree)) (g : Guid) (f : PTree → PTree) :
    List (Guid × PTree) :=
  match m with
  | [] => []
  | (g', p) :: rest =>
      if g' = g then (g', f p) :: rest else (g', p) :: guidMapUpdate rest g f

/-- `CascadiaSettings::_append`: try to `emplace` the profile into
`profilesByGuid`; on success push it onto `profiles`, otherwise record a
`DuplicateProfile` warning and leave both containers unchanged. -/
def appendProfile (s : ParsedSettingsT) (p : PTree) : ParsedSettingsT :=
  if (guidLookup s.profilesByGuid p.guid).isSome then
    { s with warnings := s.warnings ++ [SettingsLoadWarnings.DuplicateProfile] }
  else
    { s with
      profilesByGuid := s.profilesByGuid ++ [(p.guid, p)]
      profiles := s.profiles ++ [p] }

/-- `reproduceProfile`: a fresh profile that copies the parent's
identifying attributes (origin, name, guid, hidden, source), has no
settings of its own, and has the given profile as its sole parent. -/
def reproduceProfile (parent : PTree) : PTree :=
  .node
    { guid := parent.guid
      name := parent.name
      origin := parent.origin
      source := parent.data.source
      hiddenDecl := parent.data.hiddenDecl
      deleted := false
      updates := 0
      settings := [] }
    [parent]

/-- `CascadiaSettings::_layerGeneratedProfiles`: for each candidate, try to
`emplace` it into `profilesByGuid` under its GUID.  If the GUID is already
taken, the existing mapped profile gains the candidate as hindmost parent
(`InsertParent`); otherwise the candidate itself becomes the mapped value
and a reproduction of it is pushed onto `profiles`. -/
def layerGeneratedProfiles (generatedProfiles : List PTree)
    (userSettings : ParsedSettingsT) : ParsedSettingsT :=
  match generatedProfiles with
  | [] => userSettings
  | g :: rest =>
      let next :=
        if (guidLookup userSettings.profilesByGuid g.guid).isSome then
          { userSettings with
            profilesByGuid :=
              guidMapUpdate userSettings.profilesByGuid g.guid
                (fun t => t.insertParentBack g) }
        else
          { userSettings with
            profilesByGuid := userSettings.profilesByGuid ++ [(g.guid, g)]
            profiles := userSettings.profiles ++ [reproduceProfile g] }
      layerGeneratedProfiles rest next

/-- One step of `parseAndLayerFragmentFiles` for a single fragment profile:
when `Updates() != winrt::guid{}` and the target GUID is found in
`profilesByGuid`, the fragment (with its `source` set) is prepended as the
front-most parent of the mapped profile (`InsertParent(0, …)`) and nothing
is appended; when the target is absent, nothing happens; when `updates` is
nil, the fragment's reproduction is `_append`ed. -/
def layerFragmentProfile (userSettings : ParsedSettingsT) (c : PTree)
    (source : String) : ParsedSettingsT :=
  if c.updates ≠ 0 then
    match guidLookup userSettings.profilesByGuid c.updates with
    | some _ =>
        { userSettings with
          profilesByGuid :=
            guidMapUpdate userSettings.profilesByGuid c.updates
              (fun t => t.insertParentFront (c.setSource source)) }
    | none => userSettings
  else
    appendProfile userSettings (reproduceProfile (c.setSource source))

/-! ### Re-hide pass over the dynamic profiles (`LoadAll`, state block)

`LoadAll` keeps `userProfileCount = userSettings.profiles.size()` from
before any layering and later iterates `getDynamicProfiles()`, a
`gsl::span{data + userProfileCount, data + size - userProfileCount}` over
the (by then grown) profile vector — the elements at positions
`[userProfileCount, size - userProfileCount)` when that range is
well-formed; when `size - userProfileCount < userProfileCount` (fewer
profiles were appended during layering than the user file declared) the
end pointer precedes the start pointer and the span constructor itself
fail-fasts on its contract.  For each spanned profile,
`generatedProfileIds.emplace(guid)` decides: newly inserted GUID — set the
`newGeneratedProfiles` flag; already present — mark the profile
`Deleted(true)` and `Hidden(true)`.  Afterwards the id set is re-persisted
only when the flag is set. -/

/-- The `getDynamicProfiles` lambda of `LoadAll`:
`gsl::span{ data + userProfileCount, data + size - userProfileCount }`.
The span contract requires the end pointer not to precede the start
pointer; when `size - userProfileCount < userProfileCount` the
construction itself is a contract violation (fail-fast), modelled as
`none`.  Otherwise the span holds the profiles at positions
`[userProfileCount, size - userProfileCount)`. -/
def getDynamicProfiles (profiles : List PTree) (userProfileCount : Nat) :
    Option (List PTree) :=
  if userProfileCount ≤ profiles.length - userProfileCount then
    some ((profiles.take (profiles.length - userProfileCount)).drop
      userProfileCount)
  else
    none

/-- Mark a profile `Deleted(true)` and `Hidden(true)` (its own `hidden`
declaration is set). -/
def rehideMark : PTree → PTree
  | .node d ps => .node { d with deleted := true, hiddenDecl := some true } ps

/-- The body of the re-hide loop, walking the spanned profiles in order and
threading the persisted GUID set: a profile whose GUID `emplace`s freshly
sets the new-profiles flag; one whose GUID was already present is marked
hidden and deleted.  Returns the rewritten span, the final id set and the
flag. -/
def rehideGo : List PTree → List Guid → List PTree × List Guid × Bool
  | [], ids => ([], ids, false)
  | p :: ps, ids =>
      if p.guid ∈ ids then
        let r := rehideGo ps ids
        (rehideMark p :: r.1, r.2.1, r.2.2)
      else
        let r := rehideGo ps (ids ++ [p.guid])
        (p :: r.1, r.2.1, true)

/-- Outcome of the re-hide pass. -/
structure RehideResult where
  profiles : List PTree
  generatedProfileIds : List Guid
  newGeneratedProfiles : Bool

/-- The re-hide pass of `LoadAll`: construct the `getDynamicProfiles()`
span — `none` when the construction already violates the span contract —
then run the loop over it and write the processed span back in place (the
C++ loop mutates the spanned elements of the profile vector directly). -/
def rehideSeenDynamicProfiles (profiles : List PTree)
    (userProfileCount : Nat) (generatedProfileIds : List Guid) :
    Option RehideResult :=
  match getDynamicProfiles profiles userProfileCount with
  | none => none
  | some span =>
      some
        { profiles :=
            profiles.take userProfileCount ++
              (rehideGo span generatedProfileIds).1 ++
              profiles.drop (userProfileCount + span.length)
          generatedProfileIds := (rehideGo span generatedProfileIds).2.1
          newGeneratedProfiles := (rehideGo span generatedProfileIds).2.2 }

/-- The sidecar-state write after the re-hide pass:
`if (newGeneratedProfiles) { state->GeneratedProfiles(ids); }`. -/
def generatedProfilesPersisted (r : RehideResult) : Bool :=
  r.newGeneratedProfiles

/-- Whether `LoadAll` writes the user settings back to disk.
`needToWriteFile` is initialized as `settingsString.empty()` at the top of
`LoadAll` and is never assigned again; in particular the
`newGeneratedProfiles` flag computed by the re-hide pass does not feed
into it, so the final `if (needToWriteFile)` only sees whether the
settings file was missing. -/
def loadAllWritesSettingsFile (settingsStringEmpty : Bool)
    (_rehide : RehideResult) : Bool :=
  settingsStringEmpty

/-! ### Media-resource validation (`_validateMediaResources`) -/

/-- The slice of a finalized profile that `_validateMediaResources`
touches: the default appearance's background-image path, the unfocused
appearance's background-image path when an unfocused appearance exists,
and the icon path. -/
structure MediaProfile where
  backgroundImagePath : String
  unfocusedBackgroundImagePath : Option String
  icon : String
  deriving DecidableEq, Repr

/-- Length in UTF-16 code units (`std::wstring::size()` of the path). -/
def utf16Length (s : String) : Nat :=
  s.data.foldl (fun n c => n + (if c.toNat < 65536 then 1 else 2)) 0

/-- One profile iteration of `_validateMediaResources`, parameterised by
`uriOk` (whether the `Windows::Foundation::Uri` constructor succeeds on a
string), `expandEnv` (`wil::ExpandEnvironmentStringsW`, applied to icon
paths) and `expandBg` (`ExpandedBackgroundImagePath`).  A non-empty
background path whose expansion is no parseable URI is reset to `""`; a
non-empty icon path whose expansion is no parseable URI is reset to `""`
only when the expansion is longer than 2 code units (short symbols, e.g.
emoji, are kept).  Returns the adjusted profile and the two invalidity
flags. -/
def validateMediaProfile (uriOk : String → Bool)
    (expandEnv expandBg : String → String) (p : MediaProfile) :
    MediaProfile × Bool × Bool :=
  let bgInvalid :=
    p.backgroundImagePath != "" && !uriOk (expandBg p.backgroundImagePath)
  let unfInvalid :=
    match p.unfocusedBackgroundImagePath with
    | none => false
    | some u => u != "" && !uriOk (expandBg u)
  let iconExpanded := expandEnv p.icon
  let iconInvalid :=
    p.icon != "" && !uriOk iconExpanded &&
      decide (utf16Length iconExpanded > 2)
  ({ backgroundImagePath := if bgInvalid then "" else p.backgroundImagePath
     unfocusedBackgroundImagePath :=
       match p.unfocusedBackgroundImagePath with
       | none => none
       | some u => some (if u != "" && !uriOk (expandBg u) then "" else u)
     icon := if iconInvalid then "" else p.icon },
   bgInvalid || unfInvalid, iconInvalid)

/-- `CascadiaSettings::_validateMediaResources`: walk all profiles
accumulating the two flags, then append `InvalidBackgroundImage` and/or
`InvalidIcon` to the warnings (in that order) when the respective flag was
raised anywhere. -/
def validateMediaResources (uriOk : String → Bool)
    (expandEnv expandBg : String → String) (profiles : List MediaProfile) :
    List MediaProfile × List SettingsLoadWarnings :=
  let r := profiles.foldl
    (fun (acc : List MediaProfile × Bool × Bool) p =>
      let one := validateMediaProfile uriOk expandEnv expandBg p
      (acc.1 ++ [one.1], acc.2.1 || one.2.1, acc.2.2 || one.2.2))
    ([], false, false)
  (r.1,
    (if r.2.1 then [SettingsLoadWarnings.InvalidBackgroundImage] else []) ++
      (if r.2.2 then [SettingsLoadWarnings.InvalidIcon] else []))

/-! ### Post-load mutating operations (`CreateNewProfile`,
`DuplicateProfile`, `Copy`) -/

/-- The slice of a loaded `CascadiaSettings` object these operations
touch: `_allProfiles`, `_activeProfiles` and
`_userDefaultProfileSettings`. -/
structure SettingsState where
  allProfiles : List PTree
  activeProfiles : List PTree
  userDefaultProfileSettings : Option PTree

/-- `fmt::format(L"Profile {}", k)`; the argument is computed in `uint32`
arithmetic by the caller. -/
def profileNameCandidate (k : Nat) : String :=
  "Profile " ++ Nat.repr k

/-- The candidate-probing loop of `CreateNewProfile`: try each candidate
in turn and stop at the first one that no existing profile's name equals;
when no candidate passes, the last assigned name remains. -/
def createNewProfileNameGo (names : List String) :
    List Nat → String → String
  | [], newName => newName
  | k :: ks, _ =>
      let newName := profileNameCandidate k
      if names.all (fun n => n != newName) then newName
      else createNewProfileNameGo names ks newName

/-- The name chosen by `CreateNewProfile`: with
`count = _allProfiles.Size() + 1`, the candidates are
`"Profile {count + candidateIndex}"` for `candidateIndex ∈ [0, count)`,
the sum taken in `uint32` (wraparound is acknowledged by the source's
comment). -/
def createNewProfileName (names : List String) : String :=
  let count := names.length + 1
  createNewProfileNameGo names
    ((List.range count).map (fun i => (count + i) % 2 ^ 32)) ""

/-- Modelled from the spec: `Profile::CreateChild` (in `Profile.h`, not
among the sources) — a new profile with no declarations of its own whose
sole parent is the given profile, so that all settings are inherited from
it (spec sections 4.6 and 4.7). -/
def createChild (parent : PTree) : PTree :=
  .node
    { guid := 0, name := "", origin := .user, source := none
      hiddenDecl := none, deleted := false, updates := 0, settings := [] }
    [parent]

/-- `CascadiaSettings::_CreateNewProfile`: a child of
`_userDefaultProfileSettings` when one is set (else a fresh profile), with
a newly created GUID (`CoCreateGuid`, passed here as a parameter) and the
given name assigned. -/
def createNewProfileRecord (userDefaults : Option PTree) (newGuid : Guid)
    (newName : String) : PTree :=
  let base :=
    match userDefaults with
    | some d => createChild d
    | none =>
        PTree.node
          { guid := 0, name := "", origin := .user, source := none
            hiddenDecl := none, deleted := false, updates := 0
            settings := [] } []
  match base with
  | .node d ps => .node { d with guid := newGuid, name := newName } ps

/-- `CascadiaSettings::CreateNewProfile`: `nullptr` when the profile list
is at `uint32` capacity; otherwise pick a free name, build the profile and
append it to both `_allProfiles` and `_activeProfiles` unconditionally. -/
def createNewProfile (s : SettingsState) (newGuid : Guid) :
    Option (SettingsState × PTree) :=
  if s.allProfiles.length = 2 ^ 32 - 1 then none
  else
    let newName := createNewProfileName (s.allProfiles.map PTree.name)
    let p := createNewProfileRecord s.userDefaultProfileSettings newGuid newName
    some
      ({ s with
          allProfiles := s.allProfiles ++ [p]
          activeProfiles := s.activeProfiles ++ [p] }, p)

/-- `RS_(L"CopySuffix")`, a localized resource string, modelled as a
constant. -/
def copySuffix : String := "Copy"

/-- The candidate-probing loop of `DuplicateProfile`: starting from
`"{name} ({suffix})"`, each failing probe replaces the candidate with
`"{name} ({suffix} {candidateIndex + 2})"`. -/
def duplicateNameGo (names : List String) (sourceName : String) :
    List Nat → String → String
  | [], newName => newName
  | k :: ks, newName =>
      if names.all (fun n => n != newName) then newName
      else
        duplicateNameGo names sourceName ks
          (sourceName ++ " (" ++ copySuffix ++ " " ++
            Nat.repr ((k + 2) % 2 ^ 32) ++ ")")

/-- The name chosen by `DuplicateProfile` for the duplicate. -/
def duplicateProfileName (names : List String) (sourceName : String) :
    String :=
  let count := names.length + 1
  duplicateNameGo names sourceName (List.range count)
    (sourceName ++ " (" ++ copySuffix ++ ")")

/-- The `DUPLICATE_SETTING_MACRO` block of `DuplicateProfile`, which
copies the listed per-profile settings from the source onto the duplicate;
in the tri-state bag model the source's declarations are copied.  The
`Hidden` setting is deliberately not among the copied settings ("If the
source is hidden … we don't want the copy to be hidden as well"), so the
duplicate's own `hidden` declaration stays absent. -/
def duplicateCopySettings (source dup : PTree) : PTree :=
  match dup with
  | .node d ps => .node { d with settings := source.data.settings } ps

/-- `CascadiaSettings::DuplicateProfile`: build the duplicate via
`_CreateNewProfile`, copy the non-`Hidden` settings over, and append it to
both `_allProfiles` and `_activeProfiles` unconditionally. -/
def duplicateProfile (s : SettingsState) (source : PTree) (newGuid : Guid) :
    SettingsState × PTree :=
  let newName := duplicateProfileName (s.allProfiles.map PTree.name) source.name
  let d := createNewProfileRecord s.userDefaultProfileSettings newGuid newName
  let d := duplicateCopySettings source d
  ({ s with
      allProfiles := s.allProfiles ++ [d]
      activeProfiles := s.activeProfiles ++ [d] }, d)

/-- `CascadiaSettings::Copy` (profile part): clone every profile of
`_allProfiles` and rebuild the copy's `_activeProfiles` as exactly the
non-hidden clones, in order.  `Profile::Copy` clones the record, which in
a value model is the value itself. -/
def copySettingsState (s : SettingsState) : SettingsState :=
  { allProfiles := s.allProfiles
    activeProfiles := s.allProfiles.filter (fun p => !p.effectiveHidden)
    userDefaultProfileSettings := s.userDefaultProfileSettings }

/-! ### Coherence predicates for the catalog (claim C6) -/

/-- Key-set coherence between the GUID index and the profile list: a GUID
is a key of `profilesByGuid` exactly when a profile with that GUID is an
element of `profiles`. -/
def KeysetCoherent (s : ParsedSettingsT) : Prop :=
  ∀ g : Guid,
    (guidLookup s.profilesByGuid g).isSome = true ↔
      ∃ p ∈ s.profiles, p.guid = g

/-- The profile the GUID index yields for a key carries that GUID. -/
def MapGuidCorrect (s : ParsedSettingsT) : Prop :=
  ∀ (g : Guid) (p : PTree), guidLookup s.profilesByGuid g = some p →
    p.guid = g

/-- The full claimed coherence: additionally, the profile the index yields
for a GUID is the very element of the profile list carrying that GUID. -/
def MapYieldsListElement (s : ParsedSettingsT) : Prop :=
  ∀ (g : Guid) (p : PTree), guidLookup s.profilesByGuid g = some p →
    p ∈ s.profiles

/-- Decimal decoding of a digit string, the proof device used to show
that `Nat.repr` (the formatting of `fmt::format(L"Profile {}", …)`) is
injective. -/
def decodeDigitList (l : List Char) : Nat :=
  l.foldl (fun a c => a * 10 + (c.toNat - 48)) 0

/-! ## Theorems -/

/-- C1 counterexample: with zero profiles in the final catalog the fatal
error reported by `LoadAll`'s finalize-then-validate tail is
`AllProfilesHidden`, not `NoProfiles` — contradicting the claim that the
"at least one profile exists" check fires first and that no other fatal
error code is reported in that case. -/
theorem c1_zero_profiles_yields_AllProfilesHidden :
    finalizeAndValidateProfiles [] =
      Except.error SettingsLoadErrors.AllProfilesHidden ∧
    SettingsLoadErrors.AllProfilesHidden ≠ SettingsLoadErrors.NoProfiles :=
  ⟨rfl, fun h => SettingsLoadErrors.noConfusion h⟩

/-- C1 (amended): when resolution completes with zero profiles, loading
fails fatally with `AllProfilesHidden`: `_FinalizeSettings` (which runs
`_UpdateActiveProfiles`) executes before `_validateSettings`, and an empty
catalog has an empty active list.  Consequently the `NoProfiles` error of
`_validateProfilesExist` is unreachable: it is reported for no input at
all. -/
theorem c1_empty_catalog_error_order :
    finalizeAndValidateProfiles [] =
      Except.error SettingsLoadErrors.AllProfilesHidden ∧
    ∀ ps : List PTree,
      finalizeAndValidateProfiles ps ≠
        Except.error SettingsLoadErrors.NoProfiles := by
  refine ⟨rfl, fun ps => ?_⟩
  unfold finalizeAndValidateProfiles updateActiveProfiles validateProfilesExist
  by_cases hfil : (ps.filter (fun p => !p.effectiveHidden)).length = 0
  · simp only [hfil, if_true]
    intro h
    exact SettingsLoadErrors.noConfusion (Except.error.inj h)
  · have hps : ¬ ps.length = 0 := by
      intro h0
      rw [List.length_eq_zero] at h0
      subst h0
      simp at hfil
    simp only [hfil, if_false, hps]
    intro h
    exact Except.noConfusion h

/-- Characterization of the re-hide loop when the spanned GUIDs are
pairwise distinct (which holds for the spans `LoadAll` produces, since
every append into the catalog goes through a successful `emplace` into
`profilesByGuid`): a spanned profile with an already-persisted GUID is
marked, one with a fresh GUID is kept and its GUID appended to the set,
and the flag reports whether any GUID was fresh. -/
theorem rehideGo_char (span : List PTree) :
    ∀ ids0 : List Guid, ((span.map PTree.guid).Nodup) →
      rehideGo span ids0 =
        (span.map (fun p => if p.guid ∈ ids0 then rehideMark p else p),
         ids0 ++
           ((span.filter (fun p => decide (p.guid ∉ ids0))).map PTree.guid),
         span.any (fun p => decide (p.guid ∉ ids0))) := by
  induction span with
  | nil => intro ids0 _; simp [rehideGo]
  | cons p ps ih =>
      intro ids0 hnd
      rw [List.map_cons, List.nodup_cons] at hnd
      obtain ⟨hp_notin, hnd'⟩ := hnd
      by_cases hp : p.guid ∈ ids0
      · simp only [rehideGo, if_pos hp, ih ids0 hnd', List.map_cons,
          List.filter_cons, List.any_cons]
        simp [hp]
      · simp only [rehideGo, if_neg hp, ih (ids0 ++ [p.guid]) hnd',
          List.map_cons, List.filter_cons, List.any_cons]
        have hne : ∀ q ∈ ps, q.guid ≠ p.guid := by
          intro q hq he
          exact hp_notin (he ▸ List.mem_map_of_mem PTree.guid hq)
        have hmap :
            ps.map (fun q =>
                if q.guid ∈ ids0 ++ [p.guid] then rehideMark q else q) =
              ps.map (fun q => if q.guid ∈ ids0 then rehideMark q else q) := by
          apply List.map_congr_left
          intro q hq
          simp [List.mem_append, hne q hq]
        have hfil :
            ps.filter (fun q => decide (q.guid ∉ ids0 ++ [p.guid])) =
              ps.filter (fun q => decide (q.guid ∉ ids0)) := by
          apply List.filter_congr
          intro q hq
          simp [List.mem_append, hne q hq]
        rw [hmap, hfil]
        simp [hp, List.append_assoc]

/-- C4 counterexample, refuting that exactly the generated (not fragment)
profiles are subject to re-hide processing.  First part: a fragment-origin
reproduction sitting in the dynamic span (user profile count 0) whose GUID
is already persisted is marked hidden and deleted.  Second part: with one
user profile and one generated reproduction behind it, the span is
`[1, 2 - 1)` — well-formed and empty — so the generated profile, although
its GUID 7 is already persisted and it is absent from the user's file, is
left unhidden and undeleted, and nothing is re-hidden at all. -/
theorem c4_rehide_not_exactly_generated :
    ((rehideSeenDynamicProfiles
        [PTree.node
          { guid := 5, name := "FragRepro", origin := OriginTag.fragment,
            source := some "Publisher.Ns", hiddenDecl := none,
            deleted := false, updates := 0, settings := [] } []]
        0 [5]).map (fun r => r.profiles.map
      (fun p => (p.origin, p.effectiveHidden, p.deleted)))) =
      some [(OriginTag.fragment, true, true)] ∧
    ((rehideSeenDynamicProfiles
        [PTree.node
          { guid := 1, name := "UserProfile", origin := OriginTag.user,
            source := none, hiddenDecl := none, deleted := false,
            updates := 0, settings := [] } [],
         PTree.node
          { guid := 7, name := "GenRepro", origin := OriginTag.generated,
            source := some "Terminal.Gen", hiddenDecl := none,
            deleted := false, updates := 0, settings := [] } []]
        1 [7]).map (fun r => r.profiles.map
      (fun p => (p.origin, p.effectiveHidden, p.deleted)))) =
      some
        [(OriginTag.user, false, false),
         (OriginTag.generated, false, false)] :=
  ⟨rfl, rfl⟩

/-- C4 (amended): the re-hide pass operates on the span over positions
`[n, size - n)` of the profile list, `n` being the number of profiles
parsed from the user's file.  When `size - n < n` — fewer profiles were
appended during layering than the user file declared — the span
construction itself places its end before its start and the program
fail-fasts on the span contract, so the pass produces no result at all.
Otherwise it processes exactly the spanned profiles, which are
reproductions of any origin (inbox, generated or fragment) and exclude
the last `n` entries of the list: one whose GUID is already in the
persisted `generatedProfiles` set (GUIDs are pairwise distinct in the
states `LoadAll` builds) is marked `hidden = true` and `deleted = true`;
one with a fresh GUID is left shown and its GUID extends the set; the set
is re-persisted exactly when it was extended. -/
theorem c4_rehide_span_characterization (profiles : List PTree) (n : Nat)
    (ids0 : List Guid) :
    (profiles.length - n < n →
      rehideSeenDynamicProfiles profiles n ids0 = none) ∧
    (∀ span : List PTree,
      getDynamicProfiles profiles n = some span →
      (span.map PTree.guid).Nodup →
      span = (profiles.take (profiles.length - n)).drop n ∧
      rehideSeenDynamicProfiles profiles n ids0 =
        some
          { profiles :=
              profiles.take n ++
                span.map
                  (fun p => if p.guid ∈ ids0 then rehideMark p else p) ++
                profiles.drop (n + span.length)
            generatedProfileIds :=
              ids0 ++
                ((span.filter (fun p => decide (p.guid ∉ ids0))).map
                  PTree.guid)
            newGeneratedProfiles :=
              span.any (fun p => decide (p.guid ∉ ids0)) }) ∧
    (∀ r : RehideResult,
      rehideSeenDynamicProfiles profiles n ids0 = some r →
      generatedProfilesPersisted r = r.newGeneratedProfiles) := by
  refine ⟨?_, ?_, fun r _ => rfl⟩
  · intro hlt
    unfold rehideSeenDynamicProfiles getDynamicProfiles
    rw [if_neg (Nat.not_le.mpr hlt)]
  · intro span hspan hnd
    have hspan' : span = (profiles.take (profiles.length - n)).drop n := by
      unfold getDynamicProfiles at hspan
      by_cases hle : n ≤ profiles.length - n
      · rw [if_pos hle] at hspan
        exact (Option.some.inj hspan).symm
      · rw [if_neg hle] at hspan
        exact Option.noConfusion hspan
    refine ⟨hspan', ?_⟩
    unfold rehideSeenDynamicProfiles
    rw [hspan]
    dsimp only
    rw [rehideGo_char span ids0 hnd]

/-- C4 witness: the amended characterization applied to a concrete state —
two dynamic profiles at positions `[0, 2)`, GUID 7 already persisted and
GUID 8 fresh. -/
theorem c4_rehide_span_characterization_witness :
    (getDynamicProfiles
        [PTree.node
          { guid := 7, name := "A", origin := OriginTag.generated,
            source := none, hiddenDecl := none, deleted := false,
            updates := 0, settings := [] } [],
         PTree.node
          { guid := 8, name := "B", origin := OriginTag.generated,
            source := none, hiddenDecl := none, deleted := false,
            updates := 0, settings := [] } []] 0 =
      some
        [PTree.node
          { guid := 7, name := "A", origin := OriginTag.generated,
            source := none, hiddenDecl := none, deleted := false,
            updates := 0, settings := [] } [],
         PTree.node
          { guid := 8, name := "B", origin := OriginTag.generated,
            source := none, hiddenDecl := none, deleted := false,
            updates := 0, settings := [] } []]) ∧
    (rehideSeenDynamicProfiles
        [PTree.node
          { guid := 7, name := "A", origin := OriginTag.generated,
            source := none, hiddenDecl := none, deleted := false,
            updates := 0, settings := [] } [],
         PTree.node
          { guid := 8, name := "B", origin := OriginTag.generated,
            source := none, hiddenDecl := none, deleted := false,
            updates := 0, settings := [] } []]
        0 [7]).map (fun r => r.generatedProfileIds) = some [7, 8] := by
  refine ⟨rfl, ?_⟩
  have h := (c4_rehide_span_characterization
    [PTree.node
      { guid := 7, name := "A", origin := OriginTag.generated,
        source := none, hiddenDecl := none, deleted := false,
        updates := 0, settings := [] } [],
     PTree.node
      { guid := 8, name := "B", origin := OriginTag.generated,
        source := none, hiddenDecl := none, deleted := false,
        updates := 0, settings := [] } []]
    0 [7]).2.1
    [PTree.node
      { guid := 7, name := "A", origin := OriginTag.generated,
        source := none, hiddenDecl := none, deleted := false,
        updates := 0, settings := [] } [],
     PTree.node
      { guid := 8, name := "B", origin := OriginTag.generated,
        source := none, hiddenDecl := none, deleted := false,
        updates := 0, settings := [] } []]
    rfl (by decide)
  rw [h.2]
  rfl

/-- C3 counterexample: a JSON syntax failure of the user's settings file
(`_parseJSON` throwing `hresult_error`) is caught by neither catch clause
of `LoadAll`, so the exception propagates to the caller instead of being
reported through the returned value. -/
theorem c3_json_parse_failure_propagates :
    loadAllResult (UserParseResult.jsonSyntaxFailure "unexpected token") none =
      Except.error (LoadException.hresultErr "unexpected token") := rfl

/-- C3 (amended): `LoadAll` returns a `CascadiaSettings` value for every
fatal condition surfaced as a `SettingsException` (reported via
`loadError`) or as a typed deserialization error (reported via
`deserializationErrorMessage`), but a raw JSON syntax failure of the
user's settings file throws `hresult_error`, which matches neither catch
clause and propagates as an exception to the caller. -/
theorem c3_error_surface_of_loadAll :
    (∀ e : SettingsLoadErrors,
      loadAllResult UserParseResult.parsed (some e) =
        Except.ok { loadError := some e, deserializationErrorMessage := none }) ∧
    (∀ (m : String) (v : Option SettingsLoadErrors),
      loadAllResult (UserParseResult.typedFailure m) v =
        Except.ok { loadError := none, deserializationErrorMessage := some m }) ∧
    (loadAllResult UserParseResult.parsed none =
      Except.ok { loadError := none, deserializationErrorMessage := none }) ∧
    (∀ (errs : String) (v : Option SettingsLoadErrors),
      loadAllResult (UserParseResult.jsonSyntaxFailure errs) v =
        Except.error (LoadException.hresultErr errs)) :=
  ⟨fun _ => rfl, fun _ _ => rfl, rfl, fun _ _ => rfl⟩

/-- C2: evaluation at the failing input.  `settings.json` exists (the
settings string is non-empty) and the re-hide pass discovers a generated
profile with a GUID that is not yet persisted: the pass raises
`newGeneratedProfiles` and the sidecar state is re-persisted, yet the
settings file is not written back — `needToWriteFile` records only
whether the file was missing, contradicting both the claim and `LoadAll`'s
own comments. -/
theorem c2_new_generated_guids_do_not_write_settings :
    (rehideSeenDynamicProfiles
        [PTree.node
          { guid := 9, name := "NewShell", origin := OriginTag.generated,
            source := some "Terminal.Gen", hiddenDecl := none,
            deleted := false, updates := 0, settings := [] } []]
        0 []).map (fun r => r.newGeneratedProfiles) = some true ∧
    (rehideSeenDynamicProfiles
        [PTree.node
          { guid := 9, name := "NewShell", origin := OriginTag.generated,
            source := some "Terminal.Gen", hiddenDecl := none,
            deleted := false, updates := 0, settings := [] } []]
        0 []).map generatedProfilesPersisted = some true ∧
    (rehideSeenDynamicProfiles
        [PTree.node
          { guid := 9, name := "NewShell", origin := OriginTag.generated,
            source := some "Terminal.Gen", hiddenDecl := none,
            deleted := false, updates := 0, settings := [] } []]
        0 []).map (loadAllWritesSettingsFile false) = some false ∧
    (rehideSeenDynamicProfiles [] 0 []).map
      (loadAllWritesSettingsFile true) = some true :=
  ⟨rfl, rfl, rfl, rfl⟩

/-- Lookup in an appended association list: the front part wins. -/
theorem guidLookup_append (m m2 : List (Guid × PTree)) (g : Guid) :
    guidLookup (m ++ m2) g =
      match guidLookup m g with
      | some p => some p
      | none => guidLookup m2 g := by
  induction m with
  | nil => simp [guidLookup]
  | cons e rest ih =>
      obtain ⟨k, p⟩ := e
      by_cases hk : k = g
      · simp [guidLookup, hk]
      · simp [guidLookup, hk, ih]

/-- C8: `_append` with an already-present GUID leaves the profile list and
the GUID index unchanged and records a `DuplicateProfile` warning; in
particular, appending two profiles sharing a fresh GUID leaves exactly the
first in the list and appends one `DuplicateProfile` warning. -/
theorem c8_append_rejects_duplicate_guid :
    (∀ (s : ParsedSettingsT) (p : PTree),
      (guidLookup s.profilesByGuid p.guid).isSome = true →
      (appendProfile s p).profiles = s.profiles ∧
      (appendProfile s p).profilesByGuid = s.profilesByGuid ∧
      (appendProfile s p).warnings =
        s.warnings ++ [SettingsLoadWarnings.DuplicateProfile]) ∧
    (∀ (s : ParsedSettingsT) (q r : PTree),
      q.guid = r.guid →
      guidLookup s.profilesByGuid q.guid = none →
      (appendProfile (appendProfile s q) r).profiles = s.profiles ++ [q] ∧
      (appendProfile (appendProfile s q) r).warnings =
        s.warnings ++ [SettingsLoadWarnings.DuplicateProfile]) := by
  constructor
  · intro s p hdup
    simp [appendProfile, hdup]
  · intro s q r hqr h0
    have h1 : appendProfile s q =
        { s with
          profilesByGuid := s.profilesByGuid ++ [(q.guid, q)]
          profiles := s.profiles ++ [q] } := by
      simp [appendProfile, h0]
    have h2 : guidLookup (s.profilesByGuid ++ [(q.guid, q)]) r.guid =
        some q := by
      rw [← hqr, guidLookup_append, h0]
      simp [guidLookup]
    rw [h1]
    constructor
    · simp [appendProfile, h2]
    · simp [appendProfile, h2]

/-- C8 witness: the theorem applied to the empty catalog and two concrete
profiles sharing GUID 3. -/
theorem c8_append_rejects_duplicate_guid_witness :
    (appendProfile
      (appendProfile ⟨[], [], []⟩
        (PTree.node
          { guid := 3, name := "First", origin := OriginTag.user,
            source := none, hiddenDecl := none, deleted := false,
            updates := 0, settings := [] } []))
      (PTree.node
        { guid := 3, name := "Second", origin := OriginTag.user,
          source := none, hiddenDecl := none, deleted := false,
          updates := 0, settings := [] } [])).profiles =
      [PTree.node
        { guid := 3, name := "First", origin := OriginTag.user,
          source := none, hiddenDecl := none, deleted := false,
          updates := 0, settings := [] } []] ∧
    (appendProfile
      (appendProfile ⟨[], [], []⟩
        (PTree.node
          { guid := 3, name := "First", origin := OriginTag.user,
            source := none, hiddenDecl := none, deleted := false,
            updates := 0, settings := [] } []))
      (PTree.node
        { guid := 3, name := "Second", origin := OriginTag.user,
          source := none, hiddenDecl := none, deleted := false,
          updates := 0, settings := [] } [])).warnings =
      [SettingsLoadWarnings.DuplicateProfile] := by
  have h := c8_append_rejects_duplicate_guid.2 ⟨[], [], []⟩
    (PTree.node
      { guid := 3, name := "First", origin := OriginTag.user,
        source := none, hiddenDecl := none, deleted := false,
        updates := 0, settings := [] } [])
    (PTree.node
      { guid := 3, name := "Second", origin := OriginTag.user,
        source := none, hiddenDecl := none, deleted := false,
        updates := 0, settings := [] } [])
    rfl rfl
  exact ⟨h.1, h.2⟩

/-- Lookup after updating the value mapped by a key: the updated map
yields the transformed value at that key and is unchanged elsewhere. -/
theorem guidLookup_update (m : List (Guid × PTree)) (g : Guid)
    (f : PTree → PTree) (g' : Guid) :
    guidLookup (guidMapUpdate m g f) g' =
      if g' = g then (guidLookup m g).map f else guidLookup m g' := by
  induction m with
  | nil => simp [guidMapUpdate, guidLookup]
  | cons e rest ih =>
      obtain ⟨k, p⟩ := e
      by_cases hk : k = g
      · subst hk
        by_cases hg' : g' = k
        · subst hg'
          simp [guidMapUpdate, guidLookup]
        · have hk2 : ¬ k = g' := fun h => hg' h.symm
          simp [guidMapUpdate, guidLookup, hg', hk2]
      · by_cases hg' : k = g'
        · subst hg'
          have hne : ¬ k = g := hk
          have hne2 : ¬ g = k := fun h => hk h.symm
          simp [guidMapUpdate, guidLookup, hne, hne2]
        · simp [guidMapUpdate, guidLookup, hk, hg', ih]

/-- C5: for a fragment candidate whose `updates` GUID is non-nil and
present in the user catalog, the profile the catalog yields for that GUID
gains the fragment (with its `source` set) as front-most parent; the
fragment is not added to the visible profile list; with first-declaration-
wins lookup its declarations beat every pre-existing parent and every
parent appended later, but defer to declarations on the updated profile
itself. -/
theorem c5_fragment_update_overlay (user : ParsedSettingsT) (c t : PTree)
    (src : String)
    (hupd : c.updates ≠ 0)
    (hfound : guidLookup user.profilesByGuid c.updates = some t) :
    (guidLookup (layerFragmentProfile user c src).profilesByGuid c.updates =
      some (t.insertParentFront (c.setSource src))) ∧
    ((t.insertParentFront (c.setSource src)).parents =
      c.setSource src :: t.parents) ∧
    ((layerFragmentProfile user c src).profiles = user.profiles) ∧
    ((layerFragmentProfile user c src).warnings = user.warnings) ∧
    (∀ (k : String) (d : Option String),
      t.ownDecl k = none → c.ownDecl k = some d →
      (t.insertParentFront (c.setSource src)).lookupDecl k = some d) ∧
    (∀ (k : String) (d : Option String) (later : PTree),
      t.ownDecl k = none → c.ownDecl k = some d →
      ((t.insertParentFront (c.setSource src)).insertParentBack
        later).lookupDecl k = some d) ∧
    (∀ (k : String) (d : Option String),
      t.ownDecl k = some d →
      (t.insertParentFront (c.setSource src)).lookupDecl k = some d) := by
  obtain ⟨td, tps⟩ := t
  obtain ⟨cd, cps⟩ := c
  refine ⟨?_, rfl, ?_, ?_, ?_, ?_, ?_⟩
  · simp only [layerFragmentProfile, if_pos hupd, hfound]
    rw [guidLookup_update, if_pos rfl, hfound]
    rfl
  · simp [layerFragmentProfile, if_pos hupd, hfound]
  · simp [layerFragmentProfile, if_pos hupd, hfound]
  · intro k d hown hfrag
    simp only [PTree.ownDecl, PTree.data] at hown hfrag
    simp [PTree.insertParentFront, PTree.setSource, PTree.lookupDecl,
      PTree.lookupDeclList, hown, hfrag]
  · intro k d later hown hfrag
    simp only [PTree.ownDecl, PTree.data] at hown hfrag
    simp [PTree.insertParentFront, PTree.insertParentBack, PTree.setSource,
      PTree.lookupDecl, PTree.lookupDeclList, hown, hfrag]
  · intro k d hown
    simp only [PTree.ownDecl, PTree.data] at hown
    simp [PTree.insertParentFront, PTree.setSource, PTree.lookupDecl, hown]

/-- C5 witness: the theorem applied to a concrete catalog — a user
profile with GUID 17 declaring `fontFace = Consolas`-style data, and a
fragment updating GUID 17 with its own `fontFace` declaration. -/
theorem c5_fragment_update_overlay_witness :
    ((17 : Guid) ≠ 0) ∧
    ((layerFragmentProfile
        ⟨[PTree.node
            { guid := 17, name := "Cmd", origin := OriginTag.user,
              source := none, hiddenDecl := none, deleted := false,
              updates := 0, settings := [] } []],
          [(17,
            PTree.node
              { guid := 17, name := "Cmd", origin := OriginTag.user,
                source := none, hiddenDecl := none, deleted := false,
                updates := 0, settings := [] } [])], []⟩
        (PTree.node
          { guid := 99, name := "Overlay", origin := OriginTag.fragment,
            source := none, hiddenDecl := none, deleted := false,
            updates := 17,
            settings := [("fontFace", some "Cascadia Code")] } [])
        "Publisher.Ns").profiles.map PTree.name = ["Cmd"]) ∧
    ((PTree.node
        { guid := 17, name := "Cmd", origin := OriginTag.user,
          source := none, hiddenDecl := none, deleted := false,
          updates := 0, settings := [] } []).insertParentFront
      ((PTree.node
        { guid := 99, name := "Overlay", origin := OriginTag.fragment,
          source := none, hiddenDecl := none, deleted := false,
          updates := 17,
          settings := [("fontFace", some "Cascadia Code")] }
        []).setSource "Publisher.Ns")).lookupDecl "fontFace" =
      some (some "Cascadia Code") := by
  have h := c5_fragment_update_overlay
    ⟨[PTree.node
        { guid := 17, name := "Cmd", origin := OriginTag.user,
          source := none, hiddenDecl := none, deleted := false,
          updates := 0, settings := [] } []],
      [(17,
        PTree.node
          { guid := 17, name := "Cmd", origin := OriginTag.user,
            source := none, hiddenDecl := none, deleted := false,
            updates := 0, settings := [] } [])], []⟩
    (PTree.node
      { guid := 99, name := "Overlay", origin := OriginTag.fragment,
        source := none, hiddenDecl := none, deleted := false,
        updates := 17,
        settings := [("fontFace", some "Cascadia Code")] } [])
    (PTree.node
      { guid := 17, name := "Cmd", origin := OriginTag.user,
        source := none, hiddenDecl := none, deleted := false,
        updates := 0, settings := [] } [])
    "Publisher.Ns" (by decide) rfl
  refine ⟨by decide, ?_, ?_⟩
  · rw [h.2.2.1]
    rfl
  · exact h.2.2.2.2.1 "fontFace" (some "Cascadia Code") rfl rfl

/-- Parent insertion at the back leaves the GUID unchanged. -/
theorem guid_insertParentBack (t par : PTree) :
    (t.insertParentBack par).guid = t.guid := by
  cases t
  rfl

/-- Parent insertion at the front leaves the GUID unchanged. -/
theorem guid_insertParentFront (t par : PTree) :
    (t.insertParentFront par).guid = t.guid := by
  cases t
  rfl

/-- Setting the source attribute leaves the GUID unchanged. -/
theorem guid_setSource (t : PTree) (src : String) :
    (t.setSource src).guid = t.guid := by
  cases t
  rfl

/-- A reproduction carries its parent's GUID. -/
theorem guid_reproduceProfile (p : PTree) :
    (reproduceProfile p).guid = p.guid := rfl

/-- Extending the catalog with one profile-list element and one map entry
sharing a GUID preserves both coherence predicates. -/
theorem coherence_extend (s : ParsedSettingsT) (pm pl : PTree)
    (w : List SettingsLoadWarnings) (hguid : pl.guid = pm.guid)
    (h1 : KeysetCoherent s) (h2 : MapGuidCorrect s) :
    KeysetCoherent
      ⟨s.profiles ++ [pl], s.profilesByGuid ++ [(pm.guid, pm)], w⟩ ∧
    MapGuidCorrect
      ⟨s.profiles ++ [pl], s.profilesByGuid ++ [(pm.guid, pm)], w⟩ := by
  constructor
  · intro g
    show (guidLookup (s.profilesByGuid ++ [(pm.guid, pm)]) g).isSome = true ↔
      ∃ p ∈ s.profiles ++ [pl], p.guid = g
    rw [guidLookup_append]
    cases hcase : guidLookup s.profilesByGuid g with
    | some q =>
        simp only [Option.isSome_some, true_iff]
        obtain ⟨q', hq', hg'⟩ := (h1 g).mp (by rw [hcase]; rfl)
        exact ⟨q', List.mem_append_left _ hq', hg'⟩
    | none =>
        by_cases hpg : pm.guid = g
        · subst hpg
          constructor
          · intro _
            exact ⟨pl, List.mem_append_right _ (List.mem_singleton_self pl),
              hguid⟩
          · intro _
            simp [guidLookup]
        · constructor
          · intro hsome
            simp [guidLookup, hpg] at hsome
          · intro hex
            exfalso
            obtain ⟨q, hq, hgq⟩ := hex
            rcases List.mem_append.mp hq with hq1 | hq2
            · have := (h1 g).mpr ⟨q, hq1, hgq⟩
              rw [hcase] at this
              exact Bool.noConfusion this
            · rw [List.mem_singleton] at hq2
              subst hq2
              exact hpg (hguid ▸ hgq)
  · intro g q hq
    have hq' : (match guidLookup s.profilesByGuid g with
        | some p => some p
        | none => guidLookup [(pm.guid, pm)] g) = some q := by
      rw [← guidLookup_append]
      exact hq
    cases hcase : guidLookup s.profilesByGuid g with
    | some q0 =>
        rw [hcase] at hq'
        exact Option.some.inj hq' ▸ h2 g q0 hcase
    | none =>
        rw [hcase] at hq'
        simp only [guidLookup] at hq'
        by_cases hpg : pm.guid = g
        · rw [if_pos hpg] at hq'
          exact Option.some.inj hq' ▸ hpg
        · rw [if_neg hpg] at hq'
          exact Option.noConfusion hq'

/-- Updating a mapped value with a GUID-preserving transformation
preserves both coherence predicates. -/
theorem coherence_mapUpdate (s : ParsedSettingsT) (g0 : Guid)
    (f : PTree → PTree) (hf : ∀ t, (f t).guid = t.guid)
    (h1 : KeysetCoherent s) (h2 : MapGuidCorrect s) :
    KeysetCoherent
      ⟨s.profiles, guidMapUpdate s.profilesByGuid g0 f, s.warnings⟩ ∧
    MapGuidCorrect
      ⟨s.profiles, guidMapUpdate s.profilesByGuid g0 f, s.warnings⟩ := by
  constructor
  · intro g
    show (guidLookup (guidMapUpdate s.profilesByGuid g0 f) g).isSome = true ↔
      ∃ p ∈ s.profiles, p.guid = g
    rw [guidLookup_update]
    by_cases hg : g = g0
    · subst hg
      rw [if_pos rfl]
      have hmap : (Option.map f (guidLookup s.profilesByGuid g)).isSome =
          (guidLookup s.profilesByGuid g).isSome := by
        cases guidLookup s.profilesByGuid g <;> rfl
      rw [hmap]
      exact h1 g
    · rw [if_neg hg]
      exact h1 g
  · intro g q hq
    have hq' : (if g = g0 then
        Option.map f (guidLookup s.profilesByGuid g0)
      else guidLookup s.profilesByGuid g) = some q := by
      rw [← guidLookup_update]
      exact hq
    by_cases hg : g = g0
    · rw [if_pos hg] at hq'
      cases hcase : guidLookup s.profilesByGuid g0 with
      | some q0 =>
          rw [hcase, Option.map_some'] at hq'
          have hq0 : q0.guid = g := hg ▸ h2 g0 q0 hcase
          exact Option.some.inj hq' ▸ (hf q0 ▸ hq0 : (f q0).guid = g)
      | none =>
          rw [hcase] at hq'
          exact Option.noConfusion hq'
    · rw [if_neg hg] at hq'
      exact h2 g q hq'

/-- `_append` preserves both coherence predicates. -/
theorem coherence_append (s : ParsedSettingsT) (p : PTree)
    (h1 : KeysetCoherent s) (h2 : MapGuidCorrect s) :
    KeysetCoherent (appendProfile s p) ∧ MapGuidCorrect (appendProfile s p) := by
  unfold appendProfile
  by_cases hdup : (guidLookup s.profilesByGuid p.guid).isSome = true
  · rw [if_pos hdup]
    exact ⟨h1, h2⟩
  · rw [if_neg hdup]
    exact coherence_extend s p p _ rfl h1 h2

/-- `_layerGeneratedProfiles` preserves both coherence predicates. -/
theorem coherence_layerGenerated (gs : List PTree) :
    ∀ s : ParsedSettingsT, KeysetCoherent s → MapGuidCorrect s →
      KeysetCoherent (layerGeneratedProfiles gs s) ∧
        MapGuidCorrect (layerGeneratedProfiles gs s) := by
  induction gs with
  | nil => intro s h1 h2; exact ⟨h1, h2⟩
  | cons g rest ih =>
      intro s h1 h2
      rw [show layerGeneratedProfiles (g :: rest) s =
          layerGeneratedProfiles rest
            (if (guidLookup s.profilesByGuid g.guid).isSome then
              { s with
                profilesByGuid :=
                  guidMapUpdate s.profilesByGuid g.guid
                    (fun t => t.insertParentBack g) }
            else
              { s with
                profilesByGuid := s.profilesByGuid ++ [(g.guid, g)]
                profiles := s.profiles ++ [reproduceProfile g] })
        from rfl]
      by_cases hdup : (guidLookup s.profilesByGuid g.guid).isSome = true
      · rw [if_pos hdup]
        have step := coherence_mapUpdate s g.guid
          (fun t => t.insertParentBack g)
          (fun t => guid_insertParentBack t g) h1 h2
        exact ih _ step.1 step.2
      · rw [if_neg hdup]
        have step := coherence_extend s g (reproduceProfile g) s.warnings
          (guid_reproduceProfile g) h1 h2
        exact ih _ step.1 step.2

/-- The per-fragment-profile layering step preserves both coherence
predicates. -/
theorem coherence_layerFragment (s : ParsedSettingsT) (c : PTree)
    (src : String) (h1 : KeysetCoherent s) (h2 : MapGuidCorrect s) :
    KeysetCoherent (layerFragmentProfile s c src) ∧
      MapGuidCorrect (layerFragmentProfile s c src) := by
  unfold layerFragmentProfile
  by_cases hupd : c.updates ≠ 0
  · rw [if_pos hupd]
    cases hcase : guidLookup s.profilesByGuid c.updates with
    | some t =>
        exact coherence_mapUpdate s c.updates
          (fun t0 => t0.insertParentFront (c.setSource src))
          (fun t0 => guid_insertParentFront t0 (c.setSource src)) h1 h2
    | none => exact ⟨h1, h2⟩
  · rw [if_neg hupd]
    exact coherence_append s (reproduceProfile (c.setSource src)) h1 h2

/-- After `_layerGeneratedProfiles` reproduces a fresh generated profile
into an empty user catalog, the full claimed object-level coherence fails:
the map yields the generated original, not the listed reproduction. -/
theorem layerGenerated_breaks_MapYieldsListElement :
    ¬ MapYieldsListElement
      (layerGeneratedProfiles
        [PTree.node
          { guid := 7, name := "PS", origin := OriginTag.generated,
            source := some "Terminal.Gen", hiddenDecl := none,
            deleted := false, updates := 0, settings := [] } []]
        ⟨[], [], []⟩) := by
  intro h
  have hmem := h 7
    (PTree.node
      { guid := 7, name := "PS", origin := OriginTag.generated,
        source := some "Terminal.Gen", hiddenDecl := none,
        deleted := false, updates := 0, settings := [] } []) rfl
  rw [show (layerGeneratedProfiles
      [PTree.node
        { guid := 7, name := "PS", origin := OriginTag.generated,
          source := some "Terminal.Gen", hiddenDecl := none,
          deleted := false, updates := 0, settings := [] } []]
      ⟨[], [], []⟩).profiles =
      [reproduceProfile
        (PTree.node
          { guid := 7, name := "PS", origin := OriginTag.generated,
            source := some "Terminal.Gen", hiddenDecl := none,
            deleted := false, updates := 0, settings := [] } [])]
    from rfl, List.mem_singleton] at hmem
  have hpar := congrArg PTree.parents hmem
  rw [show (PTree.node
      { guid := 7, name := "PS", origin := OriginTag.generated,
        source := some "Terminal.Gen", hiddenDecl := none,
        deleted := false, updates := 0, settings := [] } []).parents = []
    from rfl] at hpar
  exact List.noConfusion hpar

/-- C6 counterexample: `_layerGeneratedProfiles` reproduces a fresh
generated profile into an empty user catalog; `profilesByGuid` then
yields for GUID 7 the generated profile itself — a profile with zero
parents — while the sole element of `profiles` carrying GUID 7 is the
reproduction, which has one parent: the map's value is not the list
element, although both carry the same GUID. -/
theorem c6_map_value_not_the_list_element :
    ((guidLookup
        (layerGeneratedProfiles
          [PTree.node
            { guid := 7, name := "PS", origin := OriginTag.generated,
              source := some "Terminal.Gen", hiddenDecl := none,
              deleted := false, updates := 0, settings := [] } []]
          ⟨[], [], []⟩).profilesByGuid 7).map
      (fun p => (p.guid, p.parents.length))) = some (7, 0) ∧
    ((layerGeneratedProfiles
        [PTree.node
          { guid := 7, name := "PS", origin := OriginTag.generated,
            source := some "Terminal.Gen", hiddenDecl := none,
            deleted := false, updates := 0, settings := [] } []]
        ⟨[], [], []⟩).profiles.map
      (fun p => (p.guid, p.parents.length))) = [(7, 1)] :=
  ⟨rfl, rfl⟩

/-- C6 (amended): key-set coherence — a GUID is a key of `profilesByGuid`
exactly when a profile with that GUID is an element of `profiles` — and
GUID-correctness of the mapped value are preserved by every catalog
modification of the resolution path (`_append`, `_layerGeneratedProfiles`
and the per-fragment layering step); but the mapped object need not be
the list element: for reproduced profiles the map holds the original of
which the list element is the reproduction. -/
theorem c6_catalog_coherence_preserved :
    (∀ (s : ParsedSettingsT) (p : PTree),
      KeysetCoherent s → MapGuidCorrect s →
      KeysetCoherent (appendProfile s p) ∧
        MapGuidCorrect (appendProfile s p)) ∧
    (∀ (gs : List PTree) (s : ParsedSettingsT),
      KeysetCoherent s → MapGuidCorrect s →
      KeysetCoherent (layerGeneratedProfiles gs s) ∧
        MapGuidCorrect (layerGeneratedProfiles gs s)) ∧
    (∀ (s : ParsedSettingsT) (c : PTree) (src : String),
      KeysetCoherent s → MapGuidCorrect s →
      KeysetCoherent (layerFragmentProfile s c src) ∧
        MapGuidCorrect (layerFragmentProfile s c src)) :=
  ⟨coherence_append, fun gs s => coherence_layerGenerated gs s,
    coherence_layerFragment⟩

/-- C6 witness: the preservation theorem applied to the empty catalog and
a concrete generated profile. -/
theorem c6_catalog_coherence_preserved_witness :
    KeysetCoherent
      (layerGeneratedProfiles
        [PTree.node
          { guid := 7, name := "PS", origin := OriginTag.generated,
            source := some "Terminal.Gen", hiddenDecl := none,
            deleted := false, updates := 0, settings := [] } []]
        ⟨[], [], []⟩) ∧
    MapGuidCorrect
      (layerGeneratedProfiles
        [PTree.node
          { guid := 7, name := "PS", origin := OriginTag.generated,
            source := some "Terminal.Gen", hiddenDecl := none,
            deleted := false, updates := 0, settings := [] } []]
        ⟨[], [], []⟩) :=
  c6_catalog_coherence_preserved.2.1
    [PTree.node
      { guid := 7, name := "PS", origin := OriginTag.generated,
        source := some "Terminal.Gen", hiddenDecl := none,
        deleted := false, updates := 0, settings := [] } []]
    ⟨[], [], []⟩
    (fun g => by simp [guidLookup])
    (fun g q hq => by simp [guidLookup] at hq)

/-- C7 counterexample: the user's `profiles.defaults` declares
`hidden = true`; the one resolved profile declares `hidden = false` itself
and is active.  `CreateNewProfile` then creates a child of
`profiles.defaults` — which inherits `hidden = true` — and appends it to
`_activeProfiles` unconditionally: afterwards the active list holds a
profile with `hidden = true`, violating the claimed invariant. -/
theorem c7_createNewProfile_appends_hidden_profile :
    (createNewProfile
        ⟨[PTree.node
            { guid := 1, name := "One", origin := OriginTag.user,
              source := none, hiddenDecl := some false, deleted := false,
              updates := 0, settings := [] }
            [PTree.node
              { guid := 0, name := "", origin := OriginTag.profilesDefaults,
                source := none, hiddenDecl := some true, deleted := false,
                updates := 0, settings := [] } []]],
          [PTree.node
            { guid := 1, name := "One", origin := OriginTag.user,
              source := none, hiddenDecl := some false, deleted := false,
              updates := 0, settings := [] }
            [PTree.node
              { guid := 0, name := "", origin := OriginTag.profilesDefaults,
                source := none, hiddenDecl := some true, deleted := false,
                updates := 0, settings := [] } []]],
          some (PTree.node
            { guid := 0, name := "", origin := OriginTag.profilesDefaults,
              source := none, hiddenDecl := some true, deleted := false,
              updates := 0, settings := [] } [])⟩
        42).map (fun r => r.1.activeProfiles.map PTree.effectiveHidden) =
      some [false, true] := rfl

/-- C7 (amended): after resolution (`_UpdateActiveProfiles` inside
`_FinalizeSettings`) and after `Copy`, every profile of the active list
has effective `hidden = false`; but `CreateNewProfile` and
`DuplicateProfile` append the created profile to `_activeProfiles`
unconditionally, so after them the invariant holds only when the created
profile is not hidden — in particular it is violated when
`profiles.defaults` declares `hidden = true`. -/
theorem c7_active_profiles_hidden_discipline :
    (∀ (all active : List PTree),
      finalizeAndValidateProfiles all = Except.ok active →
      ∀ p ∈ active, p.effectiveHidden = false) ∧
    (∀ (s : SettingsState) (p : PTree),
      p ∈ (copySettingsState s).activeProfiles →
      p.effectiveHidden = false) ∧
    (∀ (s : SettingsState) (g : Guid) (s' : SettingsState) (np : PTree),
      createNewProfile s g = some (s', np) →
      s'.activeProfiles = s.activeProfiles ++ [np]) ∧
    (∀ (s : SettingsState) (src : PTree) (g : Guid),
      (duplicateProfile s src g).1.activeProfiles =
        s.activeProfiles ++ [(duplicateProfile s src g).2]) := by
  refine ⟨?_, ?_, ?_, ?_⟩
  · intro all active hok p hp
    unfold finalizeAndValidateProfiles updateActiveProfiles
      validateProfilesExist at hok
    by_cases h1 : (all.filter (fun p => !p.effectiveHidden)).length = 0
    · simp [h1] at hok
    · by_cases h2 : all.length = 0
      · simp [h1, h2] at hok
      · simp only [h1, h2, if_false, if_neg h1, if_neg h2] at hok
        have hact : all.filter (fun p => !p.effectiveHidden) = active :=
          Except.ok.inj hok
        have hmem := List.mem_filter.mp (hact ▸ hp)
        simpa using hmem.2
  · intro s p hp
    have hmem := List.mem_filter.mp hp
    simpa using hmem.2
  · intro s g s' np h
    unfold createNewProfile at h
    by_cases hlen : s.allProfiles.length = 2 ^ 32 - 1
    · rw [if_pos hlen] at h
      exact Option.noConfusion h
    · rw [if_neg hlen] at h
      have h' := Option.some.inj h
      have ha : s'.activeProfiles =
          s.activeProfiles ++
            [createNewProfileRecord s.userDefaultProfileSettings g
              (createNewProfileName (s.allProfiles.map PTree.name))] :=
        congrArg (fun r => r.1.activeProfiles) h'.symm
      have hb : np =
          createNewProfileRecord s.userDefaultProfileSettings g
            (createNewProfileName (s.allProfiles.map PTree.name)) :=
        (congrArg (fun r => r.2) h').symm
      rw [ha, hb]
  · intro s src g
    rfl

/-- C7 witness: the resolution clause of the theorem applied to a
one-profile catalog whose profile is explicitly non-hidden. -/
theorem c7_active_profiles_hidden_discipline_witness :
    (PTree.node
      { guid := 1, name := "One", origin := OriginTag.user,
        source := none, hiddenDecl := some false, deleted := false,
        updates := 0, settings := [] } []).effectiveHidden = false :=
  c7_active_profiles_hidden_discipline.1
    [PTree.node
      { guid := 1, name := "One", origin := OriginTag.user,
        source := none, hiddenDecl := some false, deleted := false,
        updates := 0, settings := [] } []]
    [PTree.node
      { guid := 1, name := "One", origin := OriginTag.user,
        source := none, hiddenDecl := some false, deleted := false,
        updates := 0, settings := [] } []]
    rfl
    (PTree.node
      { guid := 1, name := "One", origin := OriginTag.user,
        source := none, hiddenDecl := some false, deleted := false,
        updates := 0, settings := [] } [])
    (List.mem_singleton_self _)

/-- Fold characterization of `_validateMediaResources`: the adjusted
profiles are the per-profile adjustments in order, and each invalidity
flag is the disjunction of the per-profile flags. -/
theorem validateMedia_foldl (uriOk : String → Bool)
    (expandEnv expandBg : String → String) :
    ∀ (profiles : List MediaProfile) (accL : List MediaProfile)
      (b1 b2 : Bool),
      profiles.foldl
        (fun (acc : List MediaProfile × Bool × Bool) p =>
          let one := validateMediaProfile uriOk expandEnv expandBg p
          (acc.1 ++ [one.1], acc.2.1 || one.2.1, acc.2.2 || one.2.2))
        (accL, b1, b2) =
      (accL ++ profiles.map
          (fun p => (validateMediaProfile uriOk expandEnv expandBg p).1),
        b1 || profiles.any
          (fun p => (validateMediaProfile uriOk expandEnv expandBg p).2.1),
        b2 || profiles.any
          (fun p => (validateMediaProfile uriOk expandEnv expandBg p).2.2)) := by
  intro profiles
  induction profiles with
  | nil =>
      intro accL b1 b2
      simp
  | cons p ps ih =>
      intro accL b1 b2
      simp only [List.foldl_cons, List.map_cons, List.any_cons]
      rw [ih]
      simp [List.append_assoc, Bool.or_assoc]

/-- C9 counterexample: a background-image path of 2 code units that is no
parseable URI is cleared and `InvalidBackgroundImage` recorded — the
claimed ≤ 2-code-unit exemption exists only for icons, not for
background images. -/
theorem c9_short_nonuri_background_cleared :
    validateMediaResources (fun _ => false) id id
        [{ backgroundImagePath := "ab", unfocusedBackgroundImagePath := none,
           icon := "" }] =
      ([{ backgroundImagePath := "", unfocusedBackgroundImagePath := none,
          icon := "" }],
        [SettingsLoadWarnings.InvalidBackgroundImage]) ∧
    utf16Length "ab" = 2 :=
  ⟨rfl, rfl⟩

/-- C9 (amended): a background-image path (default or unfocused) is
cleared exactly when it is non-empty and its expansion is not a parseable
URI — regardless of length; an icon path is cleared exactly when it is
non-empty, its expansion is not a parseable URI and the expansion is
longer than 2 code units (short symbols are kept); the corresponding
warnings are recorded exactly when some profile was adjusted. -/
theorem c9_media_validation_characterization (uriOk : String → Bool)
    (expandEnv expandBg : String → String) (profiles : List MediaProfile) :
    ((validateMediaResources uriOk expandEnv expandBg profiles).1 =
      profiles.map
        (fun p => (validateMediaProfile uriOk expandEnv expandBg p).1)) ∧
    ((validateMediaResources uriOk expandEnv expandBg profiles).2 =
      (if profiles.any
          (fun p => (validateMediaProfile uriOk expandEnv expandBg p).2.1)
        then [SettingsLoadWarnings.InvalidBackgroundImage] else []) ++
      (if profiles.any
          (fun p => (validateMediaProfile uriOk expandEnv expandBg p).2.2)
        then [SettingsLoadWarnings.InvalidIcon] else [])) ∧
    (∀ p : MediaProfile,
      (validateMediaProfile uriOk expandEnv expandBg p).1.backgroundImagePath =
        if p.backgroundImagePath ≠ "" ∧
            uriOk (expandBg p.backgroundImagePath) = false
          then "" else p.backgroundImagePath) ∧
    (∀ p : MediaProfile,
      (validateMediaProfile uriOk expandEnv expandBg p).1.icon =
        if p.icon ≠ "" ∧ uriOk (expandEnv p.icon) = false ∧
            utf16Length (expandEnv p.icon) > 2
          then "" else p.icon) := by
  refine ⟨?_, ?_, ?_, ?_⟩
  · unfold validateMediaResources
    rw [validateMedia_foldl]
    simp
  · unfold validateMediaResources
    rw [validateMedia_foldl]
    simp
  · intro p
    show (if (p.backgroundImagePath != "" &&
        !uriOk (expandBg p.backgroundImagePath)) then ""
      else p.backgroundImagePath) = _
    by_cases h1 : p.backgroundImagePath = ""
    · simp [h1]
    · by_cases h2 : uriOk (expandBg p.backgroundImagePath)
      · simp [h1, h2]
      · simp [h1, h2, Bool.eq_false_iff.mpr h2]
  · intro p
    show (if (p.icon != "" && !uriOk (expandEnv p.icon) &&
        decide (utf16Length (expandEnv p.icon) > 2)) then ""
      else p.icon) = _
    by_cases h1 : p.icon = ""
    · simp [h1]
    · by_cases h2 : uriOk (expandEnv p.icon)
      · simp [h1, h2]
      · by_cases h3 : utf16Length (expandEnv p.icon) > 2
        · simp [h1, h2, h3, Bool.eq_false_iff.mpr h2]
        · simp [h1, h2, h3, Bool.eq_false_iff.mpr h2]

/-- Splitting off the accumulator of `Nat.toDigitsCore` in base 10. -/
theorem toDigitsCore_append10 :
    ∀ (fuel n : Nat) (ds : List Char),
      Nat.toDigitsCore 10 fuel n ds = Nat.toDigitsCore 10 fuel n [] ++ ds := by
  intro fuel
  induction fuel with
  | zero => intro n ds; simp [Nat.toDigitsCore]
  | succ f ih =>
      intro n ds
      simp only [Nat.toDigitsCore]
      by_cases h : n / 10 = 0
      · simp [h]
      · rw [if_neg h, if_neg h, ih (n / 10) (Nat.digitChar (n % 10) :: ds),
          ih (n / 10) [Nat.digitChar (n % 10)]]
        simp

/-- The code of a decimal digit character. -/
theorem digitChar_toNat (d : Nat) (h : d < 10) :
    (Nat.digitChar d).toNat = 48 + d := by
  interval_cases d <;> rfl

/-- Decimal decoding inverts `Nat.toDigitsCore` in base 10 when the fuel
suffices. -/
theorem decode_toDigitsCore10 :
    ∀ (fuel n : Nat), n < fuel →
      decodeDigitList (Nat.toDigitsCore 10 fuel n []) = n := by
  intro fuel
  induction fuel with
  | zero => intro n hn; omega
  | succ f ih =>
      intro n hn
      simp only [Nat.toDigitsCore]
      by_cases h : n / 10 = 0
      · rw [if_pos h]
        have hlt : n < 10 := by omega
        have hmod : n % 10 = n := Nat.mod_eq_of_lt hlt
        have hd : (Nat.digitChar n).toNat = 48 + n := digitChar_toNat n hlt
        simp only [decodeDigitList, List.foldl_cons, List.foldl_nil, hmod, hd]
        omega
      · rw [if_neg h, toDigitsCore_append10]
        have hpos : 0 < n := by
          rcases Nat.eq_zero_or_pos n with h0 | h0
          · subst h0; simp at h
          · exact h0
        have hdiv : n / 10 < f := by
          have h1 : n / 10 < n := Nat.div_lt_self hpos (by norm_num)
          omega
        have ihd := ih (n / 10) hdiv
        unfold decodeDigitList at *
        rw [List.foldl_append, ihd]
        have hd := digitChar_toNat (n % 10) (Nat.mod_lt n (by norm_num))
        simp only [List.foldl_cons, List.foldl_nil, hd]
        omega

/-- `Nat.repr` — the decimal rendering used by
`fmt::format(L"Profile {}", k)` — is injective. -/
theorem nat_repr_injective : Function.Injective Nat.repr := by
  intro a b hab
  have ha := decode_toDigitsCore10 (a + 1) a (Nat.lt_succ_self a)
  have hb := decode_toDigitsCore10 (b + 1) b (Nat.lt_succ_self b)
  have hdata : Nat.toDigits 10 a = Nat.toDigits 10 b := by
    have := congrArg String.data hab
    simpa [Nat.repr, List.asString] using this
  rw [Nat.toDigits] at hdata
  rw [Nat.toDigits] at hdata
  rw [← ha, ← hb, hdata]

/-- Distinct numbers yield distinct candidate profile names. -/
theorem profileNameCandidate_injective :
    Function.Injective profileNameCandidate := by
  intro a b hab
  unfold profileNameCandidate at hab
  have hdata := congrArg String.data hab
  simp only [String.data_append] at hdata
  have hcancel := List.append_cancel_left hdata
  exact nat_repr_injective (String.ext hcancel)

/-- When some candidate in the probe list is free, the probing loop of
`CreateNewProfile` returns a name no existing profile uses. -/
theorem createNewProfileNameGo_free (names : List String) :
    ∀ (ks : List Nat) (prev : String),
      (∃ k ∈ ks, profileNameCandidate k ∉ names) →
      createNewProfileNameGo names ks prev ∉ names := by
  intro ks
  induction ks with
  | nil =>
      intro prev h
      obtain ⟨k, hk, _⟩ := h
      exact absurd hk (List.not_mem_nil k)
  | cons k ks ih =>
      intro prev h
      simp only [createNewProfileNameGo]
      by_cases hall : names.all (fun n => n != profileNameCandidate k) = true
      · rw [if_pos hall]
        intro hmem
        have := List.all_eq_true.mp hall _ hmem
        simp at this
      · rw [if_neg hall]
        apply ih
        obtain ⟨k', hk', hfree⟩ := h
        rcases List.mem_cons.mp hk' with rfl | hk'tail
        · exfalso
          apply hall
          rw [List.all_eq_true]
          intro n hn
          simp only [bne_iff_ne, ne_eq]
          intro he
          exact hfree (he ▸ hn)
        · exact ⟨k', hk'tail, hfree⟩

/-- Pigeonhole: `count` pairwise distinct candidates probed against fewer
than `count` names leave some candidate free. -/
theorem exists_free_candidate (names : List String) (f : Nat → String)
    (count : Nat) (hcount : names.length < count)
    (hinj : ∀ i < count, ∀ j < count, f i = f j → i = j) :
    ∃ i ∈ List.range count, f i ∉ names := by
  by_contra hcon
  push_neg at hcon
  have hnodup : ((List.range count).map f).Nodup := by
    apply List.Nodup.map_on ?_ (List.nodup_range count)
    intro i hi j hj hf
    exact hinj i (List.mem_range.mp hi) j (List.mem_range.mp hj) hf
  have hsub : ((List.range count).map f).toFinset ⊆ names.toFinset := by
    intro x hx
    rw [List.mem_toFinset] at hx ⊢
    obtain ⟨i, hi, rfl⟩ := List.mem_map.mp hx
    exact hcon i hi
  have h1 : ((List.range count).map f).toFinset.card = count := by
    rw [List.toFinset_card_of_nodup hnodup, List.length_map,
      List.length_range]
  have h2 := Finset.card_le_card hsub
  have h3 := List.toFinset_card_le (l := names)
  omega

/-- The `count` candidate names of `CreateNewProfile` are pairwise
distinct, `uint32` wraparound included, as long as `count ≤ 2^32`. -/
theorem candidates_injective (count : Nat) (hc : count ≤ 2 ^ 32) :
    ∀ i < count, ∀ j < count,
      profileNameCandidate ((count + i) % 2 ^ 32) =
        profileNameCandidate ((count + j) % 2 ^ 32) → i = j := by
  intro i hi j hj hf
  have hmod := profileNameCandidate_injective hf
  have h32 : (2 : Nat) ^ 32 = 4294967296 := by norm_num
  rw [h32] at hmod hc
  omega

/-- The name `CreateNewProfile` picks differs from every existing profile
name whenever fewer than `2^32 - 1` profiles exist. -/
theorem createNewProfileName_free (names : List String)
    (h : names.length < 2 ^ 32 - 1) :
    createNewProfileName names ∉ names := by
  unfold createNewProfileName
  apply createNewProfileNameGo_free
  have hc : names.length + 1 ≤ 2 ^ 32 := by
    have h32 : (2 : Nat) ^ 32 = 4294967296 := by norm_num
    rw [h32] at h ⊢
    omega
  obtain ⟨i, hi, hfree⟩ := exists_free_candidate names
    (fun i => profileNameCandidate ((names.length + 1 + i) % 2 ^ 32))
    (names.length + 1) (Nat.lt_succ_self _)
    (candidates_injective (names.length + 1) hc)
  exact ⟨(names.length + 1 + i) % 2 ^ 32,
    List.mem_map_of_mem _ hi, hfree⟩

/-- The record built by `_CreateNewProfile` carries the chosen name. -/
theorem name_createNewProfileRecord (userDefaults : Option PTree)
    (g : Guid) (nm : String) :
    (createNewProfileRecord userDefaults g nm).name = nm := by
  cases userDefaults with
  | none => rfl
  | some d => rfl

/-- C10 counterexample: at exactly `2^32 - 1` profiles (the `uint32`
capacity guard) `CreateNewProfile` returns null and appends nothing, so
the claim does not hold for every prior size. -/
theorem c10_at_capacity_returns_none :
    createNewProfile
      ⟨List.replicate (2 ^ 32 - 1)
        (PTree.node
          { guid := 1, name := "One", origin := OriginTag.user,
            source := none, hiddenDecl := none, deleted := false,
            updates := 0, settings := [] } []), [], none⟩ 1 = none := by
  unfold createNewProfile
  rw [if_pos (by rw [List.length_replicate])]

/-- C10 (amended): for every prior state with fewer than `2^32 - 1`
profiles, `CreateNewProfile` appends and returns a profile whose name
differs from the name of every profile that existed before the call
(`n + 1` pairwise distinct candidates `"Profile k"` probed against `n`
existing profiles always leave a free name); at exactly `2^32 - 1`
profiles it returns null instead. -/
theorem c10_createNewProfile_picks_fresh_name (s : SettingsState)
    (newGuid : Guid) (h : s.allProfiles.length < 2 ^ 32 - 1) :
    ∃ (s' : SettingsState) (p : PTree),
      createNewProfile s newGuid = some (s', p) ∧
      p.name ∉ s.allProfiles.map PTree.name ∧
      s'.allProfiles = s.allProfiles ++ [p] ∧
      s'.activeProfiles = s.activeProfiles ++ [p] := by
  have hne : s.allProfiles.length ≠ 2 ^ 32 - 1 := Nat.ne_of_lt h
  unfold createNewProfile
  rw [if_neg hne]
  refine ⟨_, _, rfl, ?_, rfl, rfl⟩
  rw [name_createNewProfileRecord]
  apply createNewProfileName_free
  rw [List.length_map]
  exact h

/-- C10 witness: the theorem applied to the empty settings state. -/
theorem c10_createNewProfile_picks_fresh_name_witness :
    ([] : List PTree).length < 2 ^ 32 - 1 ∧
    ∃ (s' : SettingsState) (p : PTree),
      createNewProfile ⟨[], [], none⟩ 5 = some (s', p) ∧
      p.name ∉ ([] : List PTree).map PTree.name ∧
      s'.allProfiles = [] ++ [p] ∧
      s'.activeProfiles = [] ++ [p] :=
  ⟨by norm_num,
    c10_createNewProfile_picks_fresh_name ⟨[], [], none⟩ 5 (by norm_num)⟩

end CascadiaModel
